import Mathlib

/-!
Verification development for the `gemini_backend.py` request-handling backend.

Each Flask endpoint is shallowly embedded as a pure Lean function from the
request data together with an *environment* (an oracle recording the outcome
of every downstream call the handler makes: document-store reads and writes,
object-storage upload, LLM invocation, HTTP download, push send) to a
response together with a trace of the side-effecting events the handler
performed, in program order.  Exceptions raised by downstream libraries are
modelled with `Except String` (carrying `str(e)`); library JSON parsing
(`json.loads` on the LLM text) is modelled by an oracle field of the
environment giving the structured parse outcome for this request.
Purely local operations that the source does not guard (building the prompt
string, `jsonify`) are modelled as total.
-/

/-- JSON values, the payload of every `jsonify(...)` response. -/
inductive JValue where
  | jstr (s : String)
  | jbool (b : Bool)
  | jnull
  | jarr (xs : List JValue)
  | jobj (fields : List (String × JValue))

/-- A response body: Flask could in principle send raw text, but every
return site of this backend goes through `jsonify`. -/
inductive Body where
  | jsonBody (j : JValue)
  | textBody (s : String)

/-- An HTTP response: status code and body. -/
structure Resp where
  status : Nat
  body : Body

/-- `Body.isJson` holds exactly on `jsonify`-produced bodies. -/
def Body.isJson : Body → Bool
  | .jsonBody _ => true
  | .textBody _ => false

/-- Side-effecting events a handler performs, in program order.
Counter events carry whether the Firestore write succeeded (the handlers
catch and ignore a failed write). -/
inductive Event where
  | evSave                              -- `file.save(str(temp_path))`
  | evReadSettings                      -- Firestore read of config/settings
  | evExtract                           -- `fitz.open(temp_path)` text extraction attempt
  | evIncrUsage (i : Nat) (ok : Bool)   -- `stats/api_usage` Increment(1) on key i
  | evLlm                               -- `model.generate_content(prompt)` attempt
  | evParseResp                         -- `json.loads` on the cleaned LLM text
  | evUpload                            -- `cloudinary.uploader.upload` attempt
  | evIncrQuiz (ok : Bool)              -- `stats/quiz_generation` Increment(1)
  | evRemoveTemp (ok : Bool)            -- `os.remove(temp_path)` attempt
  | evDownload                          -- `requests.get(url)` in extract_text_from_url
  | evSendPush                          -- `messaging.send(message)`
deriving DecidableEq

/-- The persistent counters held in the remote document store. -/
structure Counters where
  apiUsage : Nat → Nat
  quizCount : Nat

/-- Effect of one event on the persistent counters: the only writes the
program ever performs are `firestore.Increment(1)` with `merge=True`. -/
def applyEvent (c : Counters) (e : Event) : Counters :=
  match e with
  | .evIncrUsage i ok =>
      if ok then
        { c with apiUsage := fun j => if j = i then c.apiUsage j + 1 else c.apiUsage j }
      else c
  | .evIncrQuiz ok =>
      if ok then { c with quizCount := c.quizCount + 1 } else c
  | _ => c

/-- Effect of a whole trace on the counters. -/
def applyTrace (c : Counters) (t : List Event) : Counters :=
  t.foldl applyEvent c

/-- Python truthiness of `s.strip()`: true iff `s` contains a
non-whitespace character. -/
def pyStripTruthy (s : String) : Bool :=
  s.data.any (fun c => !c.isWhitespace)

/-- `jsonify` renders Python `None` as JSON `null`. -/
def jopt : Option String → JValue
  | none => JValue.jnull
  | some s => JValue.jstr s

/-- A JSON error body `{"error": msg}` as produced by the handlers. -/
def errBody (msg : String) : Body :=
  Body.jsonBody (.jobj [("error", .jstr msg)])

/-! ## `get_configured_model` (lines 58-82)

Raises when `API_KEYS` is empty; otherwise picks a random key index,
attempts (best-effort) the `stats/api_usage` increment for that key, and
returns the model handle.  The environment supplies the number of keys,
the random index drawn, and whether the Firestore write succeeded. -/

structure ModelEnv where
  keyCount : Nat        -- `len(API_KEYS)`
  chosenKey : Nat       -- value of `random.randint(0, len(API_KEYS) - 1)`
  usageWriteOk : Bool   -- whether `stats_ref.set(..., merge=True)` succeeded

def get_configured_model (m : ModelEnv) : Except String Unit × List Event :=
  if m.keyCount = 0 then
    (Except.error "No API Keys available.", [])
  else
    -- key index stays in range because randint(0, len-1) does
    (Except.ok (), [Event.evIncrUsage (m.chosenKey % m.keyCount) m.usageWriteOk])

/-! ## `upload_to_cloudinary` (lines 103-125)

Attempts the upload; on success returns `(secure_url, public_id)` from the
provider response (either may be absent → `None`); on failure re-raises.
The filename sanitisation only affects the name sent to the provider and is
not modelled. -/

def upload_to_cloudinary (uploadResult : Except String (Option String × Option String)) :
    Except String (Option String × Option String) × List Event :=
  match uploadResult with
  | .error m => (.error m, [.evUpload])
  | .ok p => (.ok p, [.evUpload])

/-! ## `/verify-note` (lines 139-255) -/

structure VerifyReq where
  hasFile : Bool        -- `'file' in request.files`
  filename : String     -- `file.filename`
  subject : String
  moduleName : String

/-- Fields of the dict `json.loads` yields on the cleaned LLM text;
`.get` with a default covers a missing key. -/
structure AiData where
  statusField : Option String
  reasonField : Option String
  summaryField : Option String

structure VerifyEnv where
  /-- Firestore read of `config/settings`: exception / doc absent /
  field absent / field value. -/
  settingsRead : Except String (Option (Option Bool))
  /-- `fitz.open(temp_path)` + page text concatenation: exception or text. -/
  extractResult : Except String String
  modelEnv : ModelEnv
  /-- `model.generate_content(prompt)`: exception or `response.text`. -/
  llmResult : Except String String
  /-- outcome of `json.loads` (plus `.get`s) on the cleaned response text;
  `none` = raised (or yielded a non-dict). -/
  parseOutcome : Option AiData
  /-- `cloudinary.uploader.upload`: exception or (secure_url, public_id). -/
  uploadResult : Except String (Option String × Option String)
  /-- whether `os.remove(temp_path)` succeeded. -/
  removeOk : Bool

/-- Full outcome of a `/verify-note` request: response, event trace, and
where the artifact ended up. -/
structure VOut where
  resp : Resp
  trace : List Event
  tempExists : Bool     -- local temp file still on disk afterwards
  cloudStored : Bool    -- artifact stored in remote object storage

/-- The AI-verification flag as computed by lines 158-167: default `True`,
best-effort read of `config/settings`. -/
def aiEnabledOf (env : VerifyEnv) : Bool :=
  match env.settingsRead with
  | .error _ => true                    -- fetch failed: default to AI ON
  | .ok none => true                    -- doc does not exist
  | .ok (some none) => true             -- field missing: .get default True
  | .ok (some (some b)) => b

/-- Initial values of `(status, reason, ai_summary)`, lines 169-172. -/
def st0 : String × String × String :=
  ("pending", "AI Verification Failed or Skipped", "No summary generated.")

/-- Lines 174-225: the conditional extraction/AI stage of `/verify-note`,
yielding the final `(status, reason, ai_summary)` triple and the events it
performed. -/
def aiStageOf (env : VerifyEnv) : (String × String × String) × List Event :=
  if !aiEnabledOf env then
    (("pending", "Manual Mode Active (AI Verification Disabled)", "Pending Admin Review"), [])
  else
    match env.extractResult with
    | .error _ =>
        -- Extraction Error: caught at line 222, continue to upload
        (st0, [.evExtract])
    | .ok extracted_text =>
        if pyStripTruthy extracted_text then
          match get_configured_model env.modelEnv with
          | (.error _, mEvs) =>
              -- get_configured_model raised: caught at line 222
              (st0, [.evExtract] ++ mEvs)
          | (.ok _, mEvs) =>
              match env.llmResult with
              | .error _ =>
                  -- AI Error: caught at line 218
                  (("pending", "AI Processing Error, marked as pending for human review.", st0.2.2),
                   [.evExtract] ++ mEvs ++ [.evLlm])
              | .ok _responseText =>
                  match env.parseOutcome with
                  | none =>
                      -- json.loads raised: caught at line 218
                      (("pending", "AI Processing Error, marked as pending for human review.", st0.2.2),
                       [.evExtract] ++ mEvs ++ [.evLlm, .evParseResp])
                  | some ai =>
                      ((ai.statusField.getD "pending",
                        ai.reasonField.getD "AI Review",
                        ai.summaryField.getD "Summary not found"),
                       [.evExtract] ++ mEvs ++ [.evLlm, .evParseResp])
        else
          (st0, [.evExtract])

def verify_note (req : VerifyReq) (env : VerifyEnv) : VOut :=
  if !req.hasFile then
    { resp := ⟨400, errBody "No file part"⟩, trace := [], tempExists := false, cloudStored := false }
  else if req.filename = "" then
    { resp := ⟨400, errBody "No selected file"⟩, trace := [], tempExists := false, cloudStored := false }
  else
    -- file.save(str(temp_path))
    let evsSave : List Event := [.evSave]
    -- Check Global Settings for AI Verification (default True, best-effort)
    let evsSettings : List Event := [.evReadSettings]
    -- conditional extraction/AI stage
    let aiStage := aiStageOf env
    -- Upload to Cloudinary (line 230)
    match upload_to_cloudinary env.uploadResult with
    | (.error m, upEvs) =>
        -- outer except (lines 248-255): minimal cleanup then 500
        { resp := ⟨500, errBody m⟩,
          trace := evsSave ++ evsSettings ++ aiStage.2 ++ upEvs ++ [.evRemoveTemp env.removeOk],
          tempExists := !env.removeOk,
          cloudStored := false }
    | (.ok (file_url, file_path_id), upEvs) =>
        -- cleanup (lines 233-238) then result assembly
        { resp := ⟨200, Body.jsonBody (.jobj
            [("status", .jstr aiStage.1.1),
             ("reason", .jstr aiStage.1.2.1),
             ("summary", .jstr aiStage.1.2.2),
             ("url", jopt file_url),
             ("fileId", jopt file_path_id)])⟩,
          trace := evsSave ++ evsSettings ++ aiStage.2 ++ upEvs ++ [.evRemoveTemp env.removeOk],
          tempExists := !env.removeOk,
          cloudStored := true }

/-! ## `extract_text_from_url` (lines 258-273)

`requests.get` with a 20s timeout; on HTTP 200 the content is parsed as a
PDF and the page texts concatenated; any failure (request exception,
non-200 status, PDF parse error) is re-raised wrapped in
`Failed to extract text from PDF: ...`. -/

structure UrlEnv where
  /-- `requests.get(url, ...)`: exception, or (status_code, content). -/
  httpResult : Except String (Nat × String)
  /-- `fitz.open(stream=...)` text of the downloaded content: exception or text. -/
  pdfText : Except String String

def extract_text_from_url (u : UrlEnv) : Except String String × List Event :=
  match u.httpResult with
  | .error m => (.error ("Failed to extract text from PDF: " ++ m), [.evDownload])
  | .ok (code, _content) =>
      if code = 200 then
        match u.pdfText with
        | .error m => (.error ("Failed to extract text from PDF: " ++ m), [.evDownload])
        | .ok text => (.ok text, [.evDownload])
      else
        (.error ("Failed to extract text from PDF: Download failed with status: " ++ toString code),
         [.evDownload])

/-! ## `/generate-quiz` (lines 275-330) -/

structure QuizReq where
  textField : Option String   -- `data.get('text', '')`, absent → none
  urlField : Option String    -- `data.get('url', '')`

structure QuizEnv where
  urlEnv : UrlEnv
  /-- `model.generate_content(prompt)` (direct `genai.GenerativeModel`,
  no key selection, no usage increment): exception or `response.text`. -/
  llmResult : Except String String
  /-- whether the `stats/quiz_generation` Increment(1) write succeeded. -/
  quizWriteOk : Bool
  /-- `json.loads` on the cleaned LLM text: exception message or value. -/
  parseOutcome : Except String JValue

def generate_quiz (req : QuizReq) (env : QuizEnv) : Resp × List Event :=
  let input_text := req.textField.getD ""
  let pdf_url := req.urlField.getD ""
  -- `if input_text and input_text.strip():`
  if input_text ≠ "" ∧ pyStripTruthy input_text then
    quizFromText input_text [] env
  else if pdf_url ≠ "" ∧ pyStripTruthy pdf_url then
    match extract_text_from_url env.urlEnv with
    | (.error m, evs) => (⟨500, errBody m⟩, evs)   -- outer except, line 328
    | (.ok source_text, evs) => quizFromText source_text evs env
  else
    (⟨400, errBody "No text or PDF URL provided"⟩, [])
where
  /-- lines 293-326: empty-text check, LLM call, counter increment,
  response parsing, result. -/
  quizFromText (source_text : String) (evs : List Event) (env : QuizEnv) :
      Resp × List Event :=
    if !pyStripTruthy source_text then
      (⟨400, errBody "Extracted text is empty"⟩, evs)
    else
      match env.llmResult with
      | .error m => (⟨500, errBody m⟩, evs ++ [.evLlm])
      | .ok _responseText =>
          -- Increment Quiz Counter (best-effort), THEN parse
          let evs2 := evs ++ [.evLlm, .evIncrQuiz env.quizWriteOk]
          match env.parseOutcome with
          | .error m => (⟨500, errBody m⟩, evs2 ++ [.evParseResp])
          | .ok quiz_data => (⟨200, Body.jsonBody quiz_data⟩, evs2 ++ [.evParseResp])

/-! ## `/generate-summary` (lines 332-367) -/

structure SummaryReq where
  urlField : Option String

structure SummaryEnv where
  urlEnv : UrlEnv
  modelEnv : ModelEnv
  llmResult : Except String String

def generate_summary (req : SummaryReq) (env : SummaryEnv) : Resp × List Event :=
  let pdf_url := req.urlField.getD ""
  -- `if not pdf_url:` — plain truthiness, no strip
  if pdf_url = "" then
    (⟨400, errBody "No PDF URL provided"⟩, [])
  else
    match extract_text_from_url env.urlEnv with
    | (.error m, evs) => (⟨500, errBody m⟩, evs)
    | (.ok source_text, evs) =>
        if !pyStripTruthy source_text then
          (⟨400, errBody "Extracted text is empty"⟩, evs)
        else
          match get_configured_model env.modelEnv with
          | (.error m, mEvs) => (⟨500, errBody m⟩, evs ++ mEvs)
          | (.ok _, mEvs) =>
              match env.llmResult with
              | .error m => (⟨500, errBody m⟩, evs ++ mEvs ++ [.evLlm])
              | .ok responseText =>
                  (⟨200, Body.jsonBody (.jobj [("summary", .jstr responseText.trim)])⟩,
                   evs ++ mEvs ++ [.evLlm])

/-! ## `/participatory-start` (lines 369-399) and
     `/participatory-evaluate` (lines 401-433)

Both read defaulted fields from the JSON body, call
`get_configured_model`, invoke the LLM, clean and `json.loads` the text,
and return the parsed object; any exception yields the 500 error body. -/

structure StartReq where
  textField : Option String

structure EvalReq where
  textField : Option String
  answerField : Option String
  questionField : Option String
  challengeField : Option String

structure LlmJsonEnv where
  modelEnv : ModelEnv
  llmResult : Except String String
  parseOutcome : Except String JValue

def participatory_start (_req : StartReq) (env : LlmJsonEnv) : Resp × List Event :=
  match get_configured_model env.modelEnv with
  | (.error m, mEvs) => (⟨500, errBody m⟩, mEvs)
  | (.ok _, mEvs) =>
      match env.llmResult with
      | .error m => (⟨500, errBody m⟩, mEvs ++ [.evLlm])
      | .ok _responseText =>
          match env.parseOutcome with
          | .error m => (⟨500, errBody m⟩, mEvs ++ [.evLlm, .evParseResp])
          | .ok j => (⟨200, Body.jsonBody j⟩, mEvs ++ [.evLlm, .evParseResp])

def participatory_evaluate (_req : EvalReq) (env : LlmJsonEnv) : Resp × List Event :=
  match get_configured_model env.modelEnv with
  | (.error m, mEvs) => (⟨500, errBody m⟩, mEvs)
  | (.ok _, mEvs) =>
      match env.llmResult with
      | .error m => (⟨500, errBody m⟩, mEvs ++ [.evLlm])
      | .ok _responseText =>
          match env.parseOutcome with
          | .error m => (⟨500, errBody m⟩, mEvs ++ [.evLlm, .evParseResp])
          | .ok j => (⟨200, Body.jsonBody j⟩, mEvs ++ [.evLlm, .evParseResp])

/-! ## `/send-notification` (lines 438-465) -/

structure NotifyReq where
  titleField : Option String
  bodyField : Option String

structure NotifyEnv where
  /-- `messaging.send(message)`: exception or message id. -/
  sendResult : Except String String

def send_notification (req : NotifyReq) (env : NotifyEnv) : Resp × List Event :=
  let bodyText := req.bodyField.getD ""
  if bodyText = "" then
    (⟨400, errBody "Body is required"⟩, [])
  else
    match env.sendResult with
    | .error m => (⟨500, errBody m⟩, [.evSendPush])
    | .ok r =>
        (⟨200, Body.jsonBody (.jobj [("success", .jbool true), ("messageId", .jstr r)])⟩,
         [.evSendPush])

/-! ## Global error handler (lines 561-580)

Any exception escaping a view function is turned into a generic JSON 500. -/

def handle_global_exception (e : String) : Resp :=
  ⟨500, Body.jsonBody (.jobj [("error", .jstr "Internal Server Error"), ("details", .jstr e)])⟩

/-! ## Requests as a sum, and counter evolution over a request sequence -/

inductive ApiCall where
  | vnote (r : VerifyReq) (e : VerifyEnv)
  | quiz (r : QuizReq) (e : QuizEnv)
  | summarize (r : SummaryReq) (e : SummaryEnv)
  | pstart (r : StartReq) (e : LlmJsonEnv)
  | peval (r : EvalReq) (e : LlmJsonEnv)
  | notify (r : NotifyReq) (e : NotifyEnv)

def runCall : ApiCall → Resp × List Event
  | .vnote r e => ((verify_note r e).resp, (verify_note r e).trace)
  | .quiz r e => generate_quiz r e
  | .summarize r e => generate_summary r e
  | .pstart r e => participatory_start r e
  | .peval r e => participatory_evaluate r e
  | .notify r e => send_notification r e

/-- Counters after serving a sequence of requests. -/
def runSeq (c : Counters) (calls : List ApiCall) : Counters :=
  calls.foldl (fun st call => applyTrace st (runCall call).2) c

/-! ## Helper predicates for the theorems -/

/-- Field lookup in a JSON object. -/
def JValue.getField : JValue → String → Option JValue
  | .jobj fs, k => fs.lookup k
  | _, _ => none

/-- A response that is a JSON result carrying `"status": "pending"`. -/
def Resp.isPendingResult (r : Resp) : Prop :=
  ∃ j, r.body = Body.jsonBody j ∧ j.getField "status" = some (.jstr "pending")

/-- A JSON error body with HTTP status 500. -/
def Resp.isJsonError500 (r : Resp) : Prop :=
  r.status = 500 ∧ ∃ j, r.body = Body.jsonBody j ∧ ∃ v, j.getField "error" = some v

/-- Position of each event in the spec's stage order for `/verify-note`
(file receipt → extraction → AI invocation → parsing → upload → cleanup);
events foreign to that pipeline get large ranks. -/
def stageRank : Event → Nat
  | .evSave => 0
  | .evReadSettings => 1
  | .evExtract => 2
  | .evIncrUsage _ _ => 3
  | .evLlm => 4
  | .evParseResp => 5
  | .evUpload => 6
  | .evRemoveTemp _ => 7
  | .evDownload => 100
  | .evIncrQuiz _ => 101
  | .evSendPush => 102

def isReadSettingsEv : Event → Bool | .evReadSettings => true | _ => false
def isUsageEv : Event → Bool | .evIncrUsage _ _ => true | _ => false
def isLlmEv : Event → Bool | .evLlm => true | _ => false
def isUploadEv : Event → Bool | .evUpload => true | _ => false
def isQuizIncrEv : Event → Bool | .evIncrQuiz _ => true | _ => false
def isDownloadEv : Event → Bool | .evDownload => true | _ => false
def isPushEv : Event → Bool | .evSendPush => true | _ => false

/-! ## Shape lemmas -/

/-- The extraction/AI stage emits one of five event sequences, each in
pipeline order. -/
lemma aiStage_shapes (env : VerifyEnv) :
    (aiStageOf env).2 = [] ∨
    (aiStageOf env).2 = [.evExtract] ∨
    (∃ i ok, (aiStageOf env).2 = [.evExtract, .evIncrUsage i ok]) ∨
    (∃ i ok, (aiStageOf env).2 = [.evExtract, .evIncrUsage i ok, .evLlm]) ∨
    (∃ i ok, (aiStageOf env).2 = [.evExtract, .evIncrUsage i ok, .evLlm, .evParseResp]) := by
  unfold aiStageOf get_configured_model
  cases h : aiEnabledOf env with
  | false => simp [h]
  | true =>
    simp only [h, Bool.not_true, Bool.false_eq_true, if_false]
    cases he : env.extractResult with
    | error m => simp
    | ok t =>
      by_cases ht : pyStripTruthy t
      · by_cases hk : env.modelEnv.keyCount = 0
        · simp [ht, hk]
        · cases hl : env.llmResult with
          | error m => simp [ht, hk]
          | ok rt => cases hp : env.parseOutcome <;> simp [ht, hk]
      · simp [ht]

/-- On a request that passes validation, the `/verify-note` trace is the
save and settings-read events, the AI-stage events, the upload attempt and
the cleanup attempt, in that order. -/
lemma verify_trace_eq (req : VerifyReq) (env : VerifyEnv)
    (hf : req.hasFile = true) (hn : req.filename ≠ "") :
    (verify_note req env).trace =
      [Event.evSave, Event.evReadSettings] ++ (aiStageOf env).2
        ++ [Event.evUpload, Event.evRemoveTemp env.removeOk] := by
  unfold verify_note upload_to_cloudinary
  cases hu : env.uploadResult with
  | error m => simp [hf, hn]
  | ok p =>
    rcases p with ⟨u, f⟩
    simp [hf, hn]

/-! ## Counter monotonicity helpers -/

lemma applyEvent_apiUsage_mono (c : Counters) (e : Event) (k : Nat) :
    c.apiUsage k ≤ (applyEvent c e).apiUsage k := by
  cases e with
  | evIncrUsage i ok =>
    cases ok with
    | false => simp [applyEvent]
    | true =>
      simp only [applyEvent, if_true]
      by_cases h : k = i <;> simp [h]
  | evIncrQuiz ok => cases ok <;> simp [applyEvent]
  | _ => simp [applyEvent]

lemma applyEvent_quiz_mono (c : Counters) (e : Event) :
    c.quizCount ≤ (applyEvent c e).quizCount := by
  cases e with
  | evIncrUsage i ok => cases ok <;> simp [applyEvent]
  | evIncrQuiz ok =>
    cases ok with
    | false => simp [applyEvent]
    | true => simp [applyEvent]
  | _ => simp [applyEvent]

lemma applyTrace_apiUsage_mono (t : List Event) (c : Counters) (k : Nat) :
    c.apiUsage k ≤ (applyTrace c t).apiUsage k := by
  induction t generalizing c with
  | nil => simp [applyTrace]
  | cons e rest ih =>
    calc c.apiUsage k ≤ (applyEvent c e).apiUsage k := applyEvent_apiUsage_mono c e k
    _ ≤ (applyTrace (applyEvent c e) rest).apiUsage k := ih (applyEvent c e)
    _ = (applyTrace c (e :: rest)).apiUsage k := by simp [applyTrace]

lemma applyTrace_quiz_mono (t : List Event) (c : Counters) :
    c.quizCount ≤ (applyTrace c t).quizCount := by
  induction t generalizing c with
  | nil => simp [applyTrace]
  | cons e rest ih =>
    calc c.quizCount ≤ (applyEvent c e).quizCount := applyEvent_quiz_mono c e
    _ ≤ (applyTrace (applyEvent c e) rest).quizCount := ih (applyEvent c e)
    _ = (applyTrace c (e :: rest)).quizCount := by simp [applyTrace]

lemma runSeq_apiUsage_mono (calls : List ApiCall) (c : Counters) (k : Nat) :
    c.apiUsage k ≤ (runSeq c calls).apiUsage k := by
  induction calls generalizing c with
  | nil => simp [runSeq]
  | cons a rest ih =>
    calc c.apiUsage k ≤ (applyTrace c (runCall a).2).apiUsage k :=
          applyTrace_apiUsage_mono _ _ _
    _ ≤ (runSeq (applyTrace c (runCall a).2) rest).apiUsage k := ih _
    _ = (runSeq c (a :: rest)).apiUsage k := by simp [runSeq]

lemma runSeq_quiz_mono (calls : List ApiCall) (c : Counters) :
    c.quizCount ≤ (runSeq c calls).quizCount := by
  induction calls generalizing c with
  | nil => simp [runSeq]
  | cons a rest ih =>
    calc c.quizCount ≤ (applyTrace c (runCall a).2).quizCount :=
          applyTrace_quiz_mono _ _
    _ ≤ (runSeq (applyTrace c (runCall a).2) rest).quizCount := ih _
    _ = (runSeq c (a :: rest)).quizCount := by simp [runSeq]

/-! ## C3 -/

/-- C3: every touch of a persistent counter is a `firestore.Increment(1)`:
a successful touch adds exactly 1 to the touched counter and leaves the
others unchanged, a failed one leaves all unchanged, and no event ever
decreases a counter; consequently, across any sequence of requests to any
endpoints, both the per-key usage counters and the quiz counter are
monotonically non-decreasing. -/
theorem counters_increment_monotone :
    (∀ c i k, (applyEvent c (.evIncrUsage i true)).apiUsage k =
        (if k = i then c.apiUsage k + 1 else c.apiUsage k)) ∧
    (∀ c i, (applyEvent c (.evIncrUsage i false)) = c) ∧
    (∀ c, (applyEvent c (.evIncrQuiz true)).quizCount = c.quizCount + 1) ∧
    (∀ c, (applyEvent c (.evIncrQuiz false)) = c) ∧
    (∀ c e k, c.apiUsage k ≤ (applyEvent c e).apiUsage k) ∧
    (∀ c e, c.quizCount ≤ (applyEvent c e).quizCount) ∧
    (∀ c calls k, c.apiUsage k ≤ (runSeq c calls).apiUsage k) ∧
    (∀ c calls, c.quizCount ≤ (runSeq c calls).quizCount) := by
  refine ⟨?_, ?_, ?_, ?_, ?_, ?_, ?_, ?_⟩
  · intro c i k; simp [applyEvent]
  · intro c i; simp [applyEvent]
  · intro c; simp [applyEvent]
  · intro c; simp [applyEvent]
  · intro c e k; exact applyEvent_apiUsage_mono c e k
  · intro c e; exact applyEvent_quiz_mono c e
  · intro c calls k; exact runSeq_apiUsage_mono calls c k
  · intro c calls; exact runSeq_quiz_mono calls c

/-- If the AI stage emitted an LLM-call event, the flag was enabled and
extraction succeeded with non-blank text. -/
lemma aiStage_llm_mem (env : VerifyEnv) (h : Event.evLlm ∈ (aiStageOf env).2) :
    aiEnabledOf env = true ∧ ∃ t, env.extractResult = .ok t ∧ pyStripTruthy t = true := by
  revert h
  unfold aiStageOf get_configured_model
  cases ha : aiEnabledOf env with
  | false => intro h; simp at h
  | true =>
    cases he : env.extractResult with
    | error m => intro h; simp at h
    | ok t =>
      by_cases ht : pyStripTruthy t
      · by_cases hk : env.modelEnv.keyCount = 0
        · intro h; simp [ht, hk] at h
        · intro _; exact ⟨rfl, t, rfl, ht⟩
      · intro h; simp [ht] at h

/-- A response-parsing event only follows an LLM call. -/
lemma aiStage_parse_imp_llm (env : VerifyEnv)
    (h : Event.evParseResp ∈ (aiStageOf env).2) : Event.evLlm ∈ (aiStageOf env).2 := by
  rcases aiStage_shapes env with hs | hs | ⟨i, ok, hs⟩ | ⟨i, ok, hs⟩ | ⟨i, ok, hs⟩ <;>
    rw [hs] at h ⊢ <;> simp_all

/-- C4: every `/verify-note` request (past input validation) performs the
document-store read of the configuration flag, and a failed read, a
missing configuration document, or a missing field all make the request
behave exactly as if AI verification were enabled — the request proceeds
instead of failing. -/
theorem verify_config_fresh_default (req : VerifyReq) (env : VerifyEnv) (m : String)
    (hf : req.hasFile = true) (hn : req.filename ≠ "") :
    Event.evReadSettings ∈ (verify_note req env).trace ∧
    verify_note req { env with settingsRead := .error m } =
      verify_note req { env with settingsRead := .ok (some (some true)) } ∧
    verify_note req { env with settingsRead := .ok none } =
      verify_note req { env with settingsRead := .ok (some (some true)) } ∧
    verify_note req { env with settingsRead := .ok (some none) } =
      verify_note req { env with settingsRead := .ok (some (some true)) } := by
  refine ⟨?_, rfl, rfl, rfl⟩
  rw [verify_trace_eq req env hf hn]
  simp

def vr0 : VerifyReq :=
  { hasFile := true, filename := "notes.pdf", subject := "CS", moduleName := "M1" }

def ve0 : VerifyEnv :=
  { settingsRead := .ok (some (some true))
    extractResult := .ok "Operating systems schedule processes."
    modelEnv := { keyCount := 1, chosenKey := 0, usageWriteOk := true }
    llmResult := .ok "raw model output"
    parseOutcome := some { statusField := some "approved"
                           reasonField := some "Relevant to the module"
                           summaryField := some "A short summary." }
    uploadResult := .ok (some "https://res.cloudinary.example/ktu_notes/notes.pdf",
                         some "ktu_notes/notes")
    removeOk := true }

theorem verify_config_fresh_default_witness :
    vr0.hasFile = true ∧ vr0.filename ≠ "" ∧
    (Event.evReadSettings ∈ (verify_note vr0 ve0).trace ∧
     verify_note vr0 { ve0 with settingsRead := .error "firestore unavailable" } =
       verify_note vr0 { ve0 with settingsRead := .ok (some (some true)) } ∧
     verify_note vr0 { ve0 with settingsRead := .ok none } =
       verify_note vr0 { ve0 with settingsRead := .ok (some (some true)) } ∧
     verify_note vr0 { ve0 with settingsRead := .ok (some none) } =
       verify_note vr0 { ve0 with settingsRead := .ok (some (some true)) }) :=
  ⟨rfl, by decide,
   verify_config_fresh_default vr0 ve0 "firestore unavailable" rfl (by decide)⟩

/-- C5: on every `/verify-note` request that completes successfully, the
performed stages occur in the pipeline order (save → settings read →
extraction → key selection/usage increment → LLM call → response parsing →
upload → cleanup, the response being assembled last), the save and the
upload both occur, the LLM is invoked only when the flag is enabled and
extraction produced non-blank text, and parsing only follows an LLM call. -/
theorem verify_stage_order (req : VerifyReq) (env : VerifyEnv)
    (h200 : (verify_note req env).resp.status = 200) :
    List.Chain' (fun a b => stageRank a < stageRank b) (verify_note req env).trace ∧
    Event.evSave ∈ (verify_note req env).trace ∧
    Event.evUpload ∈ (verify_note req env).trace ∧
    (Event.evLlm ∈ (verify_note req env).trace →
      aiEnabledOf env = true ∧ ∃ t, env.extractResult = .ok t ∧ pyStripTruthy t = true) ∧
    (Event.evParseResp ∈ (verify_note req env).trace →
      Event.evLlm ∈ (verify_note req env).trace) := by
  have hf : req.hasFile = true := by
    by_contra hc
    have hov : req.hasFile = false := by simpa using hc
    simp [verify_note, hov, errBody] at h200
  have hn : req.filename ≠ "" := by
    intro hc
    simp [verify_note, hf, hc, errBody] at h200
  have htr := verify_trace_eq req env hf hn
  refine ⟨?_, ?_, ?_, ?_, ?_⟩
  · rw [htr]
    rcases aiStage_shapes env with hs | hs | ⟨i, ok, hs⟩ | ⟨i, ok, hs⟩ | ⟨i, ok, hs⟩ <;>
      rw [hs] <;> simp [List.chain'_cons, stageRank]
  · rw [htr]; simp
  · rw [htr]; simp
  · intro hm
    apply aiStage_llm_mem env
    rw [htr] at hm
    simpa using hm
  · intro hm
    rw [htr] at hm ⊢
    have hp : Event.evParseResp ∈ (aiStageOf env).2 := by simpa using hm
    have := aiStage_parse_imp_llm env hp
    simp [this]

theorem verify_stage_order_witness :
    (verify_note vr0 ve0).resp.status = 200 ∧
    (List.Chain' (fun a b => stageRank a < stageRank b) (verify_note vr0 ve0).trace ∧
     Event.evSave ∈ (verify_note vr0 ve0).trace ∧
     Event.evUpload ∈ (verify_note vr0 ve0).trace ∧
     (Event.evLlm ∈ (verify_note vr0 ve0).trace →
       aiEnabledOf ve0 = true ∧ ∃ t, ve0.extractResult = .ok t ∧ pyStripTruthy t = true) ∧
     (Event.evParseResp ∈ (verify_note vr0 ve0).trace →
       Event.evLlm ∈ (verify_note vr0 ve0).trace)) :=
  ⟨rfl, verify_stage_order vr0 ve0 rfl⟩

/-- Every request to every endpoint yields a JSON body and one of the
status codes 200, 400, 500. -/
lemma runCall_json_status (call : ApiCall) :
    (runCall call).1.body.isJson = true ∧
    ((runCall call).1.status = 200 ∨ (runCall call).1.status = 400 ∨
      (runCall call).1.status = 500) := by
  cases call with
  | vnote r e =>
    simp only [runCall]
    unfold verify_note upload_to_cloudinary aiStageOf get_configured_model
    repeat' split
    all_goals (dsimp only []; try split_ifs)
    all_goals simp [Body.isJson, errBody]
  | quiz r e =>
    simp only [runCall]
    unfold generate_quiz generate_quiz.quizFromText extract_text_from_url
    repeat' split
    all_goals (dsimp only []; try split_ifs)
    all_goals simp [Body.isJson, errBody]
  | summarize r e =>
    simp only [runCall]
    unfold generate_summary extract_text_from_url get_configured_model
    repeat' split
    all_goals (dsimp only []; try split_ifs)
    all_goals simp [Body.isJson, errBody]
  | pstart r e =>
    simp only [runCall]
    unfold participatory_start get_configured_model
    repeat' split
    all_goals (dsimp only []; try split_ifs)
    all_goals simp [Body.isJson, errBody]
  | peval r e =>
    simp only [runCall]
    unfold participatory_evaluate get_configured_model
    repeat' split
    all_goals (dsimp only []; try split_ifs)
    all_goals simp [Body.isJson, errBody]
  | notify r e =>
    simp only [runCall]
    unfold send_notification
    repeat' split
    all_goals (dsimp only []; try split_ifs)
    all_goals simp [Body.isJson, errBody]

/-- C6: every endpoint response — success, validation failure (400) and
downstream failure (500) alike — carries a JSON body, and so does the
global error handler. -/
theorem all_responses_json :
    (∀ call, (runCall call).1.body.isJson = true) ∧
    (∀ e, (handle_global_exception e).body.isJson = true ∧
      (handle_global_exception e).status = 500) :=
  ⟨fun call => (runCall_json_status call).1, fun _ => ⟨rfl, rfl⟩⟩

/-- `extract_text_from_url` performs exactly one download attempt. -/
lemma extract_url_trace (u : UrlEnv) :
    (extract_text_from_url u).2 = [Event.evDownload] := by
  unfold extract_text_from_url
  cases hh : u.httpResult with
  | error m => rfl
  | ok p =>
    rcases p with ⟨code, content⟩
    by_cases hc : code = 200
    · cases hp : u.pdfText <;> simp [hc]
    · simp [hc]

/-- The `/generate-quiz` trace is one of six event sequences. -/
lemma quiz_trace_shapes (r : QuizReq) (e : QuizEnv) :
    (generate_quiz r e).2 = [] ∨
    (generate_quiz r e).2 = [.evDownload] ∨
    (generate_quiz r e).2 = [.evLlm] ∨
    (generate_quiz r e).2 = [.evDownload, .evLlm] ∨
    (generate_quiz r e).2 = [.evLlm, .evIncrQuiz e.quizWriteOk, .evParseResp] ∨
    (generate_quiz r e).2 = [.evDownload, .evLlm, .evIncrQuiz e.quizWriteOk, .evParseResp] := by
  unfold generate_quiz generate_quiz.quizFromText
  dsimp only []
  by_cases h1 : (r.textField.getD "") ≠ "" ∧ pyStripTruthy (r.textField.getD "") = true
  · rw [if_pos h1]
    simp only [h1.2, Bool.not_true]
    cases hl : e.llmResult with
    | error m => simp
    | ok t => cases hp : e.parseOutcome <;> simp
  · rw [if_neg h1]
    by_cases h2 : (r.urlField.getD "") ≠ "" ∧ pyStripTruthy (r.urlField.getD "") = true
    · rw [if_pos h2]
      rcases hx : extract_text_from_url e.urlEnv with ⟨res, evs⟩
      have hevs : evs = [Event.evDownload] := by
        have h3 := extract_url_trace e.urlEnv
        rw [hx] at h3
        exact h3
      cases res with
      | error m => simp [hevs]
      | ok t =>
        by_cases ht : pyStripTruthy t
        · simp only [ht, Bool.not_true, Bool.false_eq_true, if_false]
          cases hl : e.llmResult with
          | error m => simp [hevs]
          | ok rt => cases hp : e.parseOutcome <;> simp [hevs]
        · simp [ht, hevs]
    · rw [if_neg h2]
      simp

/-- The `/generate-summary` trace is one of four event sequences. -/
lemma summary_trace_shapes (r : SummaryReq) (e : SummaryEnv) :
    (generate_summary r e).2 = [] ∨
    (generate_summary r e).2 = [.evDownload] ∨
    (∃ i ok, (generate_summary r e).2 = [.evDownload, .evIncrUsage i ok]) ∨
    (∃ i ok, (generate_summary r e).2 = [.evDownload, .evIncrUsage i ok, .evLlm]) := by
  unfold generate_summary get_configured_model
  dsimp only []
  by_cases h1 : (r.urlField.getD "") = ""
  · simp [h1]
  · rw [if_neg h1]
    rcases hx : extract_text_from_url e.urlEnv with ⟨res, evs⟩
    have hevs : evs = [Event.evDownload] := by
      have h3 := extract_url_trace e.urlEnv
      rw [hx] at h3
      exact h3
    cases res with
    | error m => simp [hevs]
    | ok t =>
      by_cases ht : pyStripTruthy t
      · simp only [ht, Bool.not_true, Bool.false_eq_true, if_false]
        by_cases hk : e.modelEnv.keyCount = 0
        · simp [hk, hevs]
        · cases hl : e.llmResult <;> simp [hk, hevs]
      · simp [ht, hevs]

/-- The `/participatory-start` trace is one of three event sequences. -/
lemma pstart_trace_shapes (r : StartReq) (e : LlmJsonEnv) :
    (participatory_start r e).2 = [] ∨
    (∃ i ok, (participatory_start r e).2 = [.evIncrUsage i ok, .evLlm]) ∨
    (∃ i ok, (participatory_start r e).2 = [.evIncrUsage i ok, .evLlm, .evParseResp]) := by
  unfold participatory_start get_configured_model
  by_cases hk : e.modelEnv.keyCount = 0
  · simp [hk]
  · cases hl : e.llmResult with
    | error m => simp [hk]
    | ok t => cases hp : e.parseOutcome <;> simp [hk]

/-- The `/participatory-evaluate` trace is one of three event sequences. -/
lemma peval_trace_shapes (r : EvalReq) (e : LlmJsonEnv) :
    (participatory_evaluate r e).2 = [] ∨
    (∃ i ok, (participatory_evaluate r e).2 = [.evIncrUsage i ok, .evLlm]) ∨
    (∃ i ok, (participatory_evaluate r e).2 = [.evIncrUsage i ok, .evLlm, .evParseResp]) := by
  unfold participatory_evaluate get_configured_model
  by_cases hk : e.modelEnv.keyCount = 0
  · simp [hk]
  · cases hl : e.llmResult with
    | error m => simp [hk]
    | ok t => cases hp : e.parseOutcome <;> simp [hk]

/-- The `/send-notification` trace is empty or a single push attempt. -/
lemma notify_trace_shapes (r : NotifyReq) (e : NotifyEnv) :
    (send_notification r e).2 = [] ∨ (send_notification r e).2 = [.evSendPush] := by
  unfold send_notification
  dsimp only []
  by_cases hb : (r.bodyField.getD "") = ""
  · simp [hb]
  · cases hs : e.sendResult <;> simp [hb]

/-- C7: on every request to any endpoint, each downstream interaction —
the settings read, the usage-counter write, the LLM invocation, the
storage upload, the quiz-counter write, the URL download and the push
send — is attempted at most once; no failed call is retried. -/
theorem downstream_at_most_once (call : ApiCall) :
    (runCall call).2.countP isReadSettingsEv ≤ 1 ∧
    (runCall call).2.countP isUsageEv ≤ 1 ∧
    (runCall call).2.countP isLlmEv ≤ 1 ∧
    (runCall call).2.countP isUploadEv ≤ 1 ∧
    (runCall call).2.countP isQuizIncrEv ≤ 1 ∧
    (runCall call).2.countP isDownloadEv ≤ 1 ∧
    (runCall call).2.countP isPushEv ≤ 1 := by
  cases call with
  | vnote r e =>
    simp only [runCall]
    by_cases hf : r.hasFile = true
    · by_cases hn : r.filename = ""
      · simp [verify_note, hf, hn, List.countP_nil]
      · have htr := verify_trace_eq r e hf hn
        rw [htr]
        rcases aiStage_shapes e with hs | hs | ⟨i, ok, hs⟩ | ⟨i, ok, hs⟩ | ⟨i, ok, hs⟩ <;>
          rw [hs] <;>
          simp [List.countP_cons, List.countP_append, List.countP_nil, isReadSettingsEv,
            isUsageEv, isLlmEv, isUploadEv, isQuizIncrEv, isDownloadEv, isPushEv]
    · have hf2 : r.hasFile = false := by simpa using hf
      simp [verify_note, hf2, List.countP_nil]
  | quiz r e =>
    rcases quiz_trace_shapes r e with h | h | h | h | h | h <;>
      simp only [runCall] <;> rw [h] <;>
      simp [List.countP_cons, List.countP_nil, isReadSettingsEv, isUsageEv, isLlmEv,
        isUploadEv, isQuizIncrEv, isDownloadEv, isPushEv]
  | summarize r e =>
    rcases summary_trace_shapes r e with h | h | ⟨i, ok, h⟩ | ⟨i, ok, h⟩ <;>
      simp only [runCall] <;> rw [h] <;>
      simp [List.countP_cons, List.countP_nil, isReadSettingsEv, isUsageEv, isLlmEv,
        isUploadEv, isQuizIncrEv, isDownloadEv, isPushEv]
  | pstart r e =>
    rcases pstart_trace_shapes r e with h | ⟨i, ok, h⟩ | ⟨i, ok, h⟩ <;>
      simp only [runCall] <;> rw [h] <;>
      simp [List.countP_cons, List.countP_nil, isReadSettingsEv, isUsageEv, isLlmEv,
        isUploadEv, isQuizIncrEv, isDownloadEv, isPushEv]
  | peval r e =>
    rcases peval_trace_shapes r e with h | ⟨i, ok, h⟩ | ⟨i, ok, h⟩ <;>
      simp only [runCall] <;> rw [h] <;>
      simp [List.countP_cons, List.countP_nil, isReadSettingsEv, isUsageEv, isLlmEv,
        isUploadEv, isQuizIncrEv, isDownloadEv, isPushEv]
  | notify r e =>
    rcases notify_trace_shapes r e with h | h <;>
      simp only [runCall] <;> rw [h] <;>
      simp [List.countP_cons, List.countP_nil, isReadSettingsEv, isUsageEv, isLlmEv,
        isUploadEv, isQuizIncrEv, isDownloadEv, isPushEv]

/-- Outcome of `/verify-note` when the Cloudinary upload raises: the outer
handler removes the temp file (best-effort) and returns the 500 error. -/
lemma verify_note_upload_error (req : VerifyReq) (env : VerifyEnv) (m : String)
    (hf : req.hasFile = true) (hn : req.filename ≠ "") (hu : env.uploadResult = .error m) :
    (verify_note req env).resp = ⟨500, errBody m⟩ ∧
    (verify_note req env).cloudStored = false ∧
    (verify_note req env).tempExists = !env.removeOk := by
  unfold verify_note upload_to_cloudinary
  simp [hf, hn, hu]

/-- Outcome of `/verify-note` when the Cloudinary upload succeeds. -/
lemma verify_note_upload_ok (req : VerifyReq) (env : VerifyEnv)
    (u f : Option String) (hf : req.hasFile = true) (hn : req.filename ≠ "")
    (hu : env.uploadResult = .ok (u, f)) :
    (verify_note req env).resp = ⟨200, Body.jsonBody (.jobj
      [("status", .jstr (aiStageOf env).1.1),
       ("reason", .jstr (aiStageOf env).1.2.1),
       ("summary", .jstr (aiStageOf env).1.2.2),
       ("url", jopt u), ("fileId", jopt f)])⟩ ∧
    (verify_note req env).cloudStored = true ∧
    (verify_note req env).tempExists = !env.removeOk := by
  unfold verify_note upload_to_cloudinary
  simp [hf, hn, hu]

/-- C1 (amended): failures of extraction, AI invocation or response
parsing do not lose the artifact — the file is still uploaded and its URL
is in the 200 response; but when the remote-storage upload itself fails,
the handler returns the 500 error after deleting the local temp file, so
the server-side copy survives only if that deletion also fails. -/
theorem verify_artifact_fate (req : VerifyReq) (env : VerifyEnv)
    (hf : req.hasFile = true) (hn : req.filename ≠ "") :
    (∀ u f, env.uploadResult = .ok (u, f) →
      (verify_note req env).resp.status = 200 ∧
      (verify_note req env).cloudStored = true ∧
      ∃ j, (verify_note req env).resp.body = Body.jsonBody j ∧
        j.getField "url" = some (jopt u)) ∧
    (∀ m, env.uploadResult = .error m →
      (verify_note req env).resp = ⟨500, errBody m⟩ ∧
      (verify_note req env).cloudStored = false ∧
      (verify_note req env).tempExists = !env.removeOk) := by
  constructor
  · intro u f hu
    obtain ⟨hr, hc, _⟩ := verify_note_upload_ok req env u f hf hn hu
    refine ⟨by rw [hr], hc, ?_⟩
    refine ⟨_, by rw [hr], ?_⟩
    rfl
  · intro m hu
    exact verify_note_upload_error req env m hf hn hu

def ve1 : VerifyEnv := { ve0 with uploadResult := .error "Cloudinary Upload Error" }

theorem verify_artifact_lost_counterexample :
    ¬ (((verify_note vr0 ve1).resp.status = 200 ∧ (verify_note vr0 ve1).cloudStored = true)
       ∨ (verify_note vr0 ve1).tempExists = true) := by
  decide

theorem verify_artifact_fate_witness :
    ((verify_note vr0 ve0).resp.status = 200 ∧
     (verify_note vr0 ve0).cloudStored = true ∧
     ∃ j, (verify_note vr0 ve0).resp.body = Body.jsonBody j ∧
       j.getField "url" =
         some (jopt (some "https://res.cloudinary.example/ktu_notes/notes.pdf"))) ∧
    ((verify_note vr0 ve1).resp = ⟨500, errBody "Cloudinary Upload Error"⟩ ∧
     (verify_note vr0 ve1).cloudStored = false ∧
     (verify_note vr0 ve1).tempExists = !ve1.removeOk) :=
  ⟨(verify_artifact_fate vr0 ve0 rfl (by decide)).1
      (some "https://res.cloudinary.example/ktu_notes/notes.pdf")
      (some "ktu_notes/notes") rfl,
   (verify_artifact_fate vr0 ve1 rfl (by decide)).2 "Cloudinary Upload Error" rfl⟩

/-- When the LLM call raises, the AI stage always leaves the status at
`"pending"` (either via the inner handler or via the initial default). -/
lemma aiStage_status_llm_error (env : VerifyEnv) (m : String)
    (hl : env.llmResult = .error m) : (aiStageOf env).1.1 = "pending" := by
  unfold aiStageOf get_configured_model
  cases ha : aiEnabledOf env with
  | false => rfl
  | true =>
    cases he : env.extractResult with
    | error mm => simp [st0]
    | ok t =>
      by_cases ht : pyStripTruthy t
      · by_cases hk : env.modelEnv.keyCount = 0
        · simp [ht, hk, st0]
        · simp [ht, hk, hl]
      · simp [ht, st0]

/-- In `/generate-quiz`, if the LLM raised and the LLM was attempted, the
response is the 500 error carrying the exception text. -/
lemma quiz_llm_error (r : QuizReq) (e : QuizEnv) (m : String)
    (hl : e.llmResult = .error m) (hm : Event.evLlm ∈ (generate_quiz r e).2) :
    (generate_quiz r e).1 = ⟨500, errBody m⟩ := by
  revert hm
  unfold generate_quiz generate_quiz.quizFromText
  dsimp only []
  by_cases h1 : (r.textField.getD "") ≠ "" ∧ pyStripTruthy (r.textField.getD "") = true
  · rw [if_pos h1]
    simp only [h1.2, Bool.not_true, hl]
    intro hm
    simp
  · rw [if_neg h1]
    by_cases h2 : (r.urlField.getD "") ≠ "" ∧ pyStripTruthy (r.urlField.getD "") = true
    · rw [if_pos h2]
      rcases hx : extract_text_from_url e.urlEnv with ⟨res, evs⟩
      have hevs : evs = [Event.evDownload] := by
        have h3 := extract_url_trace e.urlEnv
        rw [hx] at h3
        exact h3
      cases res with
      | error mm => intro hm; simp [hevs] at hm
      | ok t =>
        by_cases ht : pyStripTruthy t
        · simp only [ht, Bool.not_true, Bool.false_eq_true, if_false, hl]
          intro hm
          simp
        · intro hm; simp [ht, hevs] at hm
    · rw [if_neg h2]
      intro hm
      simp at hm

/-- In `/generate-quiz`, if the URL download/parse pipeline raised and the
download was attempted, the response is the 500 error carrying the
exception text. -/
lemma quiz_download_error (r : QuizReq) (e : QuizEnv) (m : String)
    (hx1 : (extract_text_from_url e.urlEnv).1 = .error m)
    (hm : Event.evDownload ∈ (generate_quiz r e).2) :
    (generate_quiz r e).1 = ⟨500, errBody m⟩ := by
  revert hm
  unfold generate_quiz generate_quiz.quizFromText
  dsimp only []
  by_cases h1 : (r.textField.getD "") ≠ "" ∧ pyStripTruthy (r.textField.getD "") = true
  · rw [if_pos h1]
    simp only [h1.2, Bool.not_true]
    cases hl : e.llmResult with
    | error mm => intro hm; simp at hm
    | ok t =>
      cases hp : e.parseOutcome with
      | error mm => intro hm; simp at hm
      | ok j => intro hm; simp at hm
  · rw [if_neg h1]
    by_cases h2 : (r.urlField.getD "") ≠ "" ∧ pyStripTruthy (r.urlField.getD "") = true
    · rw [if_pos h2]
      rcases hx : extract_text_from_url e.urlEnv with ⟨res, evs⟩
      have hres : res = .error m := by
        rw [hx] at hx1
        exact hx1
      subst hres
      intro _
      rfl
    · rw [if_neg h2]
      intro hm
      simp at hm

/-- A `/verify-note` request whose AI stage left the status at
`"pending"` returns either a pending result or the upload-failure 500. -/
lemma verify_pending_or_500 (req : VerifyReq) (env : VerifyEnv)
    (hf : req.hasFile = true) (hn : req.filename ≠ "")
    (hst : (aiStageOf env).1.1 = "pending") :
    (verify_note req env).resp.isPendingResult ∨
    (verify_note req env).resp.status = 500 := by
  cases hu : env.uploadResult with
  | error m =>
    right
    obtain ⟨hr, _, _⟩ := verify_note_upload_error req env m hf hn hu
    rw [hr]
  | ok p =>
    rcases p with ⟨u, f⟩
    left
    obtain ⟨hr, _, _⟩ := verify_note_upload_ok req env u f hf hn hu
    refine ⟨_, by rw [hr], ?_⟩
    rw [hst]
    rfl

/-- C2 (amended): every downstream failure is caught — the response is
always a JSON body with status 200, 400 or 500 (never an unhandled crash
or non-JSON body); a failed LLM call on `/verify-note` degrades the result
to a pending status (or, if the upload then also fails, to the 500 error);
a failed upload yields the 500 JSON error; a failed LLM call or URL
download on `/generate-quiz` yields the 500 JSON error.  Failures of the
configuration read and of the counter writes are absorbed best-effort, so
such a request may still return a non-pending success (see the
counterexample). -/
theorem downstream_failures_caught :
    (∀ call, (runCall call).1.body.isJson = true ∧
      ((runCall call).1.status = 200 ∨ (runCall call).1.status = 400 ∨
        (runCall call).1.status = 500)) ∧
    (∀ r e m, r.hasFile = true → r.filename ≠ "" → e.uploadResult = .error m →
      (verify_note r e).resp = ⟨500, errBody m⟩) ∧
    (∀ r e m, r.hasFile = true → r.filename ≠ "" → e.llmResult = .error m →
      (verify_note r e).resp.isPendingResult ∨ (verify_note r e).resp.status = 500) ∧
    (∀ r e m, e.llmResult = .error m → Event.evLlm ∈ (generate_quiz r e).2 →
      (generate_quiz r e).1 = ⟨500, errBody m⟩) ∧
    (∀ r e m, (extract_text_from_url e.urlEnv).1 = .error m →
      Event.evDownload ∈ (generate_quiz r e).2 →
      (generate_quiz r e).1 = ⟨500, errBody m⟩) := by
  refine ⟨runCall_json_status, ?_, ?_, quiz_llm_error, quiz_download_error⟩
  · intro r e m hf hn hu
    exact (verify_note_upload_error r e m hf hn hu).1
  · intro r e m hf hn hl
    exact verify_pending_or_500 r e hf hn (aiStage_status_llm_error e m hl)

def ve2 : VerifyEnv := { ve0 with settingsRead := .error "firestore unavailable" }

/-- A document-store failure (the settings read) that the claim says must
degrade the response: the request still returns HTTP 200 with status
`"approved"`, neither a pending result nor a 500 error. -/
theorem absorbed_failure_counterexample :
    ve2.settingsRead = Except.error "firestore unavailable" ∧
    Event.evReadSettings ∈ (verify_note vr0 ve2).trace ∧
    (verify_note vr0 ve2).resp.status = 200 ∧
    ¬ ((verify_note vr0 ve2).resp.isPendingResult ∨
       (verify_note vr0 ve2).resp.status = 500) := by
  refine ⟨rfl, ?_, rfl, ?_⟩
  · rw [verify_trace_eq vr0 ve2 rfl (by decide)]
    simp
  · rintro (⟨j, hj, hs⟩ | h5)
    · have hv : (verify_note vr0 ve2).resp.body = Body.jsonBody (.jobj
        [("status", .jstr "approved"), ("reason", .jstr "Relevant to the module"),
         ("summary", .jstr "A short summary."),
         ("url", jopt (some "https://res.cloudinary.example/ktu_notes/notes.pdf")),
         ("fileId", jopt (some "ktu_notes/notes"))]) := rfl
      rw [hv] at hj
      injection hj with hj2
      subst hj2
      have hval : (JValue.jobj
        [("status", .jstr "approved"), ("reason", .jstr "Relevant to the module"),
         ("summary", .jstr "A short summary."),
         ("url", jopt (some "https://res.cloudinary.example/ktu_notes/notes.pdf")),
         ("fileId", jopt (some "ktu_notes/notes"))]).getField "status"
          = some (.jstr "approved") := rfl
      have hcontra := hval.symm.trans hs
      injection hcontra with h1
      injection h1 with h2
      exact absurd h2 (by decide)
    · exact absurd ((rfl : (verify_note vr0 ve2).resp.status = 200).symm.trans h5)
        (by decide)

def ve3 : VerifyEnv := { ve0 with llmResult := .error "LLM timeout" }

theorem downstream_failures_caught_witness :
    ((runCall (.vnote vr0 ve1)).1.body.isJson = true ∧
      ((runCall (.vnote vr0 ve1)).1.status = 200 ∨ (runCall (.vnote vr0 ve1)).1.status = 400 ∨
        (runCall (.vnote vr0 ve1)).1.status = 500)) ∧
    (verify_note vr0 ve1).resp = ⟨500, errBody "Cloudinary Upload Error"⟩ ∧
    ((verify_note vr0 ve3).resp.isPendingResult ∨ (verify_note vr0 ve3).resp.status = 500) :=
  ⟨downstream_failures_caught.1 (.vnote vr0 ve1),
   downstream_failures_caught.2.1 vr0 ve1 "Cloudinary Upload Error" rfl (by decide) rfl,
   downstream_failures_caught.2.2.1 vr0 ve3 "LLM timeout" rfl (by decide) rfl⟩

/-- With the flag disabled, the AI stage is skipped entirely. -/
lemma aiStage_disabled (env : VerifyEnv) (hd : aiEnabledOf env = false) :
    aiStageOf env =
      (("pending", "Manual Mode Active (AI Verification Disabled)", "Pending Admin Review"),
       []) := by
  unfold aiStageOf
  simp [hd]

/-- C8 (amended): on a `/verify-note` request with the flag read as
disabled, no extraction and no LLM call occurs; the upload is still
attempted, and when it succeeds the response is exactly the pending /
manual-mode / admin-review triple together with the storage URL and file
identifier; when the upload fails the request returns the 500 JSON error
instead. -/
theorem verify_disabled_manual_mode (req : VerifyReq) (env : VerifyEnv)
    (hf : req.hasFile = true) (hn : req.filename ≠ "") (hd : aiEnabledOf env = false) :
    Event.evExtract ∉ (verify_note req env).trace ∧
    Event.evLlm ∉ (verify_note req env).trace ∧
    Event.evUpload ∈ (verify_note req env).trace ∧
    (∀ u f, env.uploadResult = .ok (u, f) →
      (verify_note req env).resp = ⟨200, Body.jsonBody (.jobj
        [("status", .jstr "pending"),
         ("reason", .jstr "Manual Mode Active (AI Verification Disabled)"),
         ("summary", .jstr "Pending Admin Review"),
         ("url", jopt u), ("fileId", jopt f)])⟩) ∧
    (∀ m, env.uploadResult = .error m →
      (verify_note req env).resp = ⟨500, errBody m⟩) := by
  have htr := verify_trace_eq req env hf hn
  rw [aiStage_disabled env hd] at htr
  refine ⟨?_, ?_, ?_, ?_, ?_⟩
  · rw [htr]; simp
  · rw [htr]; simp
  · rw [htr]; simp
  · intro u f hu
    have := (verify_note_upload_ok req env u f hf hn hu).1
    rw [aiStage_disabled env hd] at this
    exact this
  · intro m hu
    exact (verify_note_upload_error req env m hf hn hu).1

def ve4 : VerifyEnv :=
  { ve0 with settingsRead := .ok (some (some false)),
             uploadResult := .error "Cloudinary Upload Error" }

/-- The flag is read as disabled, yet the artifact is not uploaded and no
URL is in the response: the request fails with the 500 error because the
upload raised, refuting the unconditional upload guarantee. -/
theorem verify_disabled_counterexample :
    aiEnabledOf ve4 = false ∧
    (verify_note vr0 ve4).resp.status = 500 ∧
    (verify_note vr0 ve4).cloudStored = false := by
  decide

def ve5 : VerifyEnv := { ve0 with settingsRead := .ok (some (some false)) }

theorem verify_disabled_manual_mode_witness :
    Event.evExtract ∉ (verify_note vr0 ve5).trace ∧
    Event.evLlm ∉ (verify_note vr0 ve5).trace ∧
    Event.evUpload ∈ (verify_note vr0 ve5).trace ∧
    (verify_note vr0 ve5).resp = ⟨200, Body.jsonBody (.jobj
      [("status", .jstr "pending"),
       ("reason", .jstr "Manual Mode Active (AI Verification Disabled)"),
       ("summary", .jstr "Pending Admin Review"),
       ("url", jopt (some "https://res.cloudinary.example/ktu_notes/notes.pdf")),
       ("fileId", jopt (some "ktu_notes/notes"))])⟩ :=
  ⟨(verify_disabled_manual_mode vr0 ve5 rfl (by decide) rfl).1,
   (verify_disabled_manual_mode vr0 ve5 rfl (by decide) rfl).2.1,
   (verify_disabled_manual_mode vr0 ve5 rfl (by decide) rfl).2.2.1,
   (verify_disabled_manual_mode vr0 ve5 rfl (by decide) rfl).2.2.2.1
     (some "https://res.cloudinary.example/ktu_notes/notes.pdf")
     (some "ktu_notes/notes") rfl⟩

/-- A string whose `strip()` is truthy is in particular non-empty. -/
lemma pyStripTruthy_ne_empty {s : String} (h : pyStripTruthy s = true) : s ≠ "" := by
  intro he
  subst he
  exact absurd h (by decide)

/-- C9: on `/generate-quiz`, a non-whitespace `text` field wins — no
download happens; the URL is downloaded exactly when `text` is blank and
`url` is not; and when both are blank the endpoint returns the 400 JSON
error having performed no downstream call at all. -/
theorem quiz_text_precedence (r : QuizReq) (e : QuizEnv) :
    (pyStripTruthy (r.textField.getD "") = true →
      Event.evDownload ∉ (generate_quiz r e).2) ∧
    (pyStripTruthy (r.textField.getD "") = false →
      pyStripTruthy (r.urlField.getD "") = true →
      Event.evDownload ∈ (generate_quiz r e).2) ∧
    (pyStripTruthy (r.textField.getD "") = false →
      pyStripTruthy (r.urlField.getD "") = false →
      generate_quiz r e = (⟨400, errBody "No text or PDF URL provided"⟩, [])) := by
  refine ⟨?_, ?_, ?_⟩
  · intro ht
    unfold generate_quiz generate_quiz.quizFromText
    dsimp only []
    rw [if_pos ⟨pyStripTruthy_ne_empty ht, ht⟩]
    simp only [ht, Bool.not_true, Bool.false_eq_true, if_false]
    cases hl : e.llmResult with
    | error m => simp
    | ok t => cases hp : e.parseOutcome <;> simp
  · intro ht hu
    unfold generate_quiz generate_quiz.quizFromText
    dsimp only []
    rw [if_neg (by simp [ht])]
    rw [if_pos ⟨pyStripTruthy_ne_empty hu, hu⟩]
    rcases hx : extract_text_from_url e.urlEnv with ⟨res, evs⟩
    have hevs : evs = [Event.evDownload] := by
      have h3 := extract_url_trace e.urlEnv
      rw [hx] at h3
      exact h3
    cases res with
    | error m => simp [hevs]
    | ok t =>
      by_cases htt : pyStripTruthy t
      · simp only [htt, Bool.not_true, Bool.false_eq_true, if_false]
        cases hl : e.llmResult with
        | error m => simp [hevs]
        | ok rt => cases hp : e.parseOutcome <;> simp [hevs]
      · simp [htt, hevs]
  · intro ht hu
    unfold generate_quiz
    dsimp only []
    rw [if_neg (by simp [ht]), if_neg (by simp [hu])]

def qrT : QuizReq :=
  { textField := some "Explain the TCP three-way handshake", urlField := some "https://cdn.example/notes.pdf" }

def qrB : QuizReq := { textField := some "   ", urlField := none }

def qe0 : QuizEnv :=
  { urlEnv := { httpResult := .ok (200, "pdfbytes"), pdfText := .ok "Networking basics" }
    llmResult := .ok "raw quiz json"
    quizWriteOk := true
    parseOutcome := .ok (.jarr []) }

theorem quiz_text_precedence_witness :
    Event.evDownload ∉ (generate_quiz qrT qe0).2 ∧
    generate_quiz qrB qe0 = (⟨400, errBody "No text or PDF URL provided"⟩, []) :=
  ⟨(quiz_text_precedence qrT qe0).1 (by decide),
   (quiz_text_precedence qrB qe0).2.2 (by decide) (by decide)⟩

/-- C10: whenever the `/generate-quiz` LLM call returns, the
quiz-generation counter increment precedes the JSON parsing of the
response text in the trace; hence a request whose LLM output fails to
parse still increments the counter (when the write goes through) while
returning the 500 error — the counter counts LLM responses, not
successfully returned quizzes. -/
theorem quiz_counter_before_parse (r : QuizReq) (e : QuizEnv) (t : String)
    (hl : e.llmResult = .ok t) (hm : Event.evLlm ∈ (generate_quiz r e).2) :
    (∃ pre, (generate_quiz r e).2 =
      pre ++ [.evLlm, .evIncrQuiz e.quizWriteOk, .evParseResp]) ∧
    (∀ c, (applyTrace c (generate_quiz r e).2).quizCount =
      c.quizCount + (if e.quizWriteOk then 1 else 0)) ∧
    (∀ m, e.parseOutcome = .error m →
      (generate_quiz r e).1 = ⟨500, errBody m⟩) := by
  have key : ∃ pre, (pre = ([] : List Event) ∨ pre = [Event.evDownload]) ∧
      (generate_quiz r e).2 = pre ++ [.evLlm, .evIncrQuiz e.quizWriteOk, .evParseResp] ∧
      (∀ m, e.parseOutcome = .error m →
        (generate_quiz r e).1 = ⟨500, errBody m⟩) := by
    revert hm
    unfold generate_quiz generate_quiz.quizFromText
    dsimp only []
    by_cases h1 : (r.textField.getD "") ≠ "" ∧ pyStripTruthy (r.textField.getD "") = true
    · rw [if_pos h1]
      simp only [h1.2, Bool.not_true, Bool.false_eq_true, if_false, hl]
      cases hp : e.parseOutcome with
      | error m2 =>
        intro _
        refine ⟨[], Or.inl rfl, by simp, ?_⟩
        intro m hp2
        injection hp2 with hmm
        subst hmm
        rfl
      | ok j =>
        intro _
        refine ⟨[], Or.inl rfl, by simp, ?_⟩
        intro m hp2
        exact absurd hp2 (by simp)
    · rw [if_neg h1]
      by_cases h2 : (r.urlField.getD "") ≠ "" ∧ pyStripTruthy (r.urlField.getD "") = true
      · rw [if_pos h2]
        rcases hx : extract_text_from_url e.urlEnv with ⟨res, evs⟩
        have hevs : evs = [Event.evDownload] := by
          have h3 := extract_url_trace e.urlEnv
          rw [hx] at h3
          exact h3
        cases res with
        | error m2 => intro hm; simp [hevs] at hm
        | ok src =>
          by_cases hts : pyStripTruthy src
          · simp only [hts, Bool.not_true, Bool.false_eq_true, if_false, hl]
            cases hp : e.parseOutcome with
            | error m2 =>
              intro _
              refine ⟨[Event.evDownload], Or.inr rfl, by simp [hevs], ?_⟩
              intro m hp2
              injection hp2 with hmm
              subst hmm
              rfl
            | ok j =>
              intro _
              refine ⟨[Event.evDownload], Or.inr rfl, by simp [hevs], ?_⟩
              intro m hp2
              exact absurd hp2 (by simp)
          · intro hm
            simp [hts, hevs] at hm
      · rw [if_neg h2]
        intro hm
        simp at hm
  obtain ⟨pre, hpre, htr, hres⟩ := key
  refine ⟨⟨pre, htr⟩, ?_, hres⟩
  intro c
  rw [htr]
  rcases hpre with h | h <;> subst h <;>
    cases hw : e.quizWriteOk <;>
      simp [applyTrace, applyEvent, hw, List.foldl]

def qrP : QuizReq := { textField := some "Explain ARP tables.", urlField := none }

def qeP : QuizEnv :=
  { urlEnv := { httpResult := .ok (200, "pdfbytes"), pdfText := .ok "Networking basics" }
    llmResult := .ok "not valid json"
    quizWriteOk := true
    parseOutcome := .error "Expecting value: line 1 column 1 (char 0)" }

def c0 : Counters := { apiUsage := fun _ => 0, quizCount := 0 }

theorem quiz_counter_before_parse_witness :
    (∃ pre, (generate_quiz qrP qeP).2 =
      pre ++ [.evLlm, .evIncrQuiz qeP.quizWriteOk, .evParseResp]) ∧
    (applyTrace c0 (generate_quiz qrP qeP).2).quizCount =
      c0.quizCount + (if qeP.quizWriteOk then 1 else 0) ∧
    (generate_quiz qrP qeP).1 =
      ⟨500, errBody "Expecting value: line 1 column 1 (char 0)"⟩ :=
  ⟨(quiz_counter_before_parse qrP qeP "not valid json" rfl (by decide)).1,
   (quiz_counter_before_parse qrP qeP "not valid json" rfl (by decide)).2.1 c0,
   (quiz_counter_before_parse qrP qeP "not valid json" rfl (by decide)).2.2 _ rfl⟩
